import Mathlib

/-!
Verification of the weather-app backend (`src/server.js` and its variants under
`src/unnamed/`): the city match-quality scorer, country normalizer, city ranking
pipeline of the `GET /cities` handler, the weather trait mapper / horoscope
generator, and the status taxonomy of the `GET /weather` handler.

JavaScript strings are modelled as Lean `String` (a list of characters);
JavaScript numbers appearing in the code are modelled as `Nat` (scores),
`Int` (weather codes) and `ℚ` (temperatures, coordinates, precipitation) —
every arithmetic operation performed by the code on these values is exact at
these types.
-/

/-- Lower-casing as used by `toLowerCase()` in the source (ASCII letters). -/
def jsToLower (s : String) : String := ⟨s.data.map Char.toLower⟩

/-- JS `a.startsWith(b)`: `b` is a prefix of `a`. -/
def jsStartsWith (s p : String) : Bool := p.data.isPrefixOf s.data

/-- Helper for `jsIncludes`: does `sub` occur as a contiguous run in `l`? -/
def listContains (sub : List Char) : List Char → Bool
  | [] => sub.isEmpty
  | c :: t => sub.isPrefixOf (c :: t) || listContains sub t

/-- JS `a.includes(b)`: `b` occurs as a substring of `a`. -/
def jsIncludes (s sub : String) : Bool := listContains sub.data s.data

/-- Helper for `jsSplitOnSpace`, accumulating the current chunk in reverse. -/
def splitOnSpaceAux : List Char → List Char → List String
  | [], acc => [⟨acc.reverse⟩]
  | c :: cs, acc =>
      if c = ' ' then ⟨acc.reverse⟩ :: splitOnSpaceAux cs []
      else splitOnSpaceAux cs (c :: acc)

/-- JS `s.split(' ')`: split on every single space character; empty chunks are
kept, and the empty string yields `[""]`. -/
def jsSplitOnSpace (s : String) : List String := splitOnSpaceAux s.data []

/-! ## Match Quality Scorer (`calculateMatchQuality`, `src/server.js:232-255`) -/

/-- The body of the `searchWords.every((searchWord, index) => cityWords[index] &&
cityWords[index].startsWith(searchWord))` check in `calculateMatchQuality`:
paired positionally, each search word needs a corresponding candidate word that
is JS-truthy (in particular non-empty) and starts with the search word; a
missing candidate word (`undefined` in JS) is falsy and fails the check. -/
def allWordsMatch : List String → List String → Bool
  | [], _ => true
  | _ :: _, [] => false
  | sw :: sws, cw :: cws => (cw ≠ "" : Bool) && jsStartsWith cw sw && allWordsMatch sws cws

/-- `calculateMatchQuality(cityName, searchTerm)` from `src/server.js:232-255`
(identical in the second variant at 820-843 and in `src/unnamed/part_002:226-249`).
The early `return` statements inside the word-matching block are modelled with an
`Option Nat` that falls through to the substring check when `none`. -/
def calculateMatchQuality (cityName searchTerm : String) : Nat :=
  let cityLower := jsToLower cityName
  let searchLower := jsToLower searchTerm
  if cityLower = searchLower then 100
  else if jsStartsWith cityLower searchLower then 95
  else
    let searchWords := jsSplitOnSpace searchLower
    let cityWords := jsSplitOnSpace cityLower
    let wordResult : Option Nat :=
      if searchWords.length > 0 && cityWords.length > 0 then
        if jsStartsWith (cityWords.headD "") (searchWords.headD "") then
          if searchWords.length = 1 then some 90
          else if allWordsMatch searchWords cityWords then some 85
          else none
        else none
      else none
    match wordResult with
    | some v => v
    | none => if jsIncludes cityLower searchLower then 70 else 0

/-- The word-by-word condition exactly as the spec sentence words it: every
search word is a prefix of the corresponding candidate word (with no
non-emptiness requirement on the candidate word). -/
def specWordsMatch : List String → List String → Bool
  | [], _ => true
  | _ :: _, [] => false
  | sw :: sws, cw :: cws => jsStartsWith cw sw && specWordsMatch sws cws

/-- The scorer exactly as the claim (C1) words it: rules applied in strict
order on the lower-cased strings, returning on the first that fires — equality
100, full prefix 95, first-word prefix with a one-word term 90, several words
each a prefix of the corresponding candidate word 85, substring 70, else 0. -/
def specMatchQuality (cityName searchTerm : String) : Nat :=
  let cityLower := jsToLower cityName
  let searchLower := jsToLower searchTerm
  let searchWords := jsSplitOnSpace searchLower
  let cityWords := jsSplitOnSpace cityLower
  if cityLower = searchLower then 100
  else if jsStartsWith cityLower searchLower then 95
  else if jsStartsWith (cityWords.headD "") (searchWords.headD "") ∧ searchWords.length = 1 then 90
  else if jsStartsWith (cityWords.headD "") (searchWords.headD "") ∧ searchWords.length ≠ 1 ∧
          specWordsMatch searchWords cityWords then 85
  else if jsIncludes cityLower searchLower then 70
  else 0

/-- The claim's description amended minimally at the 85-tier: each search word
must be a prefix of the corresponding candidate word **and** that candidate
word must be JS-truthy (non-empty) — the `cityWords[index] &&` guard of the
source. -/
def specMatchQualityAmended (cityName searchTerm : String) : Nat :=
  let cityLower := jsToLower cityName
  let searchLower := jsToLower searchTerm
  let searchWords := jsSplitOnSpace searchLower
  let cityWords := jsSplitOnSpace cityLower
  if cityLower = searchLower then 100
  else if jsStartsWith cityLower searchLower then 95
  else if jsStartsWith (cityWords.headD "") (searchWords.headD "") ∧ searchWords.length = 1 then 90
  else if jsStartsWith (cityWords.headD "") (searchWords.headD "") ∧ searchWords.length ≠ 1 ∧
          allWordsMatch searchWords cityWords then 85
  else if jsIncludes cityLower searchLower then 70
  else 0

/-! ## Country Normalizer (`normalizeCountryName`, `src/server.js:220-230`) -/

/-- The fixed alias table of `normalizeCountryName` (`src/server.js:221-228`,
identical in `src/unnamed/part_002:215-222`), as a lookup function on the
already lower-cased input. -/
def countryMappings (s : String) : Option String :=
  if s = "united states of america" then some "united states"
  else if s = "usa" then some "united states"
  else if s = "u.s.a." then some "united states"
  else if s = "u.s." then some "united states"
  else if s = "uk" then some "united kingdom"
  else if s = "great britain" then some "united kingdom"
  else none

/-- `normalizeCountryName(country)` from `src/server.js:220-230`:
`countryMappings[country.toLowerCase()] || country`, for inputs whose
lower-casing the JS lookup resolves against the object literal's own
properties. The lookup also reaches the properties the literal inherits from
`Object.prototype`; `normalizeCountryNameJS` below models that full
behaviour. -/
def normalizeCountryName (country : String) : String :=
  (countryMappings (jsToLower country)).getD country

/-- The property names every JS object literal inherits from
`Object.prototype` (including the Annex B accessors, present in Node/V8):
for these keys `countryMappings[key]` is not `undefined` even though the
literal has no such entry. -/
def objectPrototypeProps : List String :=
  ["constructor", "hasOwnProperty", "isPrototypeOf", "propertyIsEnumerable",
   "toLocaleString", "toString", "valueOf", "__proto__",
   "__defineGetter__", "__defineSetter__", "__lookupGetter__", "__lookupSetter__"]

/-- What a JS property read on the `countryMappings` object literal can
produce: a string (an own entry, or the `|| country` fallback), or a truthy
non-string value inherited from `Object.prototype` — a built-in function, or
the prototype object itself for `__proto__`. -/
inductive JsLookupResult where
  | str (s : String)
  | inheritedObject (prop : String)
deriving DecidableEq

/-- `countryMappings[s]` as JavaScript evaluates it: an own entry of the
object literal if present, else the inherited `Object.prototype` property for
the twelve prototype keys, else `undefined`. -/
def countryMappingsJS (s : String) : Option JsLookupResult :=
  match countryMappings s with
  | some v => some (.str v)
  | none =>
      if s ∈ objectPrototypeProps then some (.inheritedObject s) else none

/-- `normalizeCountryName(country)` with the prototype chain modelled:
`countryMappings[country.toLowerCase()] || country`, where every inherited
prototype value is truthy and therefore short-circuits the `|| country`
fallback. -/
def normalizeCountryNameJS (country : String) : JsLookupResult :=
  (countryMappingsJS (jsToLower country)).getD (.str country)

/-! ## City Ranking Pipeline (`GET /cities` handler, `src/server.js:283-356`) -/

/-- JS truthiness of an optional string field: `undefined` and `""` are falsy. -/
def jsTruthyOpt : Option String → Bool
  | none => false
  | some s => s ≠ ""

/-- JS `a || b` on optional string values: `b` when `a` is falsy, else `a`. -/
def jsOr (a b : Option String) : Option String :=
  if jsTruthyOpt a then a else b

/-- JS `a || ''` on an optional string value. -/
def jsOrEmpty (a : Option String) : String :=
  if jsTruthyOpt a then a.getD "" else ""

/-- The `components` object of an upstream geocoder result, restricted to the
fields the `/cities` handler reads; absent fields are `none`. -/
structure Components where
  city : Option String := none
  town : Option String := none
  municipality : Option String := none
  village : Option String := none
  county : Option String := none
  country : Option String := none
  state : Option String := none
  province : Option String := none
  region : Option String := none
deriving DecidableEq

/-- A raw upstream geocoder result as read by the handler: `components`,
`geometry.lat`/`geometry.lng`, and `formatted`. -/
structure GeoResult where
  components : Components
  lat : ℚ
  lng : ℚ
  formatted : String
deriving DecidableEq

/-- The intermediate candidate record built inside the handler's `.map`
callback (`src/server.js:305-327`). -/
structure ScoredCity where
  city : String
  state : Option String
  country : String
  latitude : ℚ
  longitude : ℚ
  score : Nat
  formatted : String
deriving DecidableEq

/-- The output shape of the handler after the final projection
(`src/server.js:338-344`). -/
structure RankedCity where
  city : String
  state : Option String
  country : String
  latitude : ℚ
  longitude : ℚ
deriving DecidableEq

/-- The `.map` callback of the handler (`src/server.js:305-327`): derive a city
name as `components.city || town || municipality || village || county`, return
`null` when that is falsy, normalize the country from `components.country || ''`,
score the city name against the search term, and keep coordinates and the
formatted address. -/
def mapResult (searchTerm : String) (r : GeoResult) : Option ScoredCity :=
  let components := r.components
  let cityNameOpt :=
    jsOr (jsOr (jsOr (jsOr components.city components.town) components.municipality)
      components.village) components.county
  if jsTruthyOpt cityNameOpt then
    let cityName := cityNameOpt.getD ""
    some { city := cityName
           state := jsOr (jsOr components.state components.province) components.region
           country := normalizeCountryName (jsOrEmpty components.country)
           latitude := r.lat
           longitude := r.lng
           score := calculateMatchQuality cityName searchTerm
           formatted := r.formatted }
  else none

/-- `.map(...).filter(city => city && city.score > 0)` (`src/server.js:304-328`). -/
def scoreStage (results : List GeoResult) (searchTerm : String) : List ScoredCity :=
  (results.filterMap (mapResult searchTerm)).filter (fun c => c.score > 0)

/-- Stable descending insertion: place `x` before the first element whose score
is not above `x`'s, so that ties keep their original relative order — the
unique result of the stable `.sort((a, b) => b.score - a.score)`. -/
def insertDesc (x : ScoredCity) : List ScoredCity → List ScoredCity
  | [] => [x]
  | y :: ys => if y.score ≤ x.score then x :: y :: ys else y :: insertDesc x ys

/-- `.sort((a, b) => b.score - a.score)` (`src/server.js:329`), modelled as the
stable descending sort mandated for `Array.prototype.sort`. -/
def sortByScoreDesc : List ScoredCity → List ScoredCity
  | [] => []
  | x :: xs => insertDesc x (sortByScoreDesc xs)

/-- The dedup key template
  `city.toLowerCase()-state||''.toLowerCase()-country.toLowerCase()`
(`src/server.js:333`). -/
def cityKey (c : ScoredCity) : String :=
  jsToLower c.city ++ "-" ++ jsToLower (jsOrEmpty c.state) ++ "-" ++ jsToLower c.country

/-- `Map.prototype.set` on an association list: an existing key keeps its
position but gets the new value, a new key is appended. -/
def jsMapInsert {α : Type} (m : List (String × α)) (k : String) (v : α) : List (String × α) :=
  if m.any (fun p => p.1 = k) then
    m.map (fun p => if p.1 = k then (p.1, v) else p)
  else m ++ [(k, v)]

/-- `new Map(pairs)`: insert the pairs left to right into an empty map. -/
def jsMapOfList {α : Type} (pairs : List (String × α)) : List (String × α) :=
  pairs.foldl (fun m p => jsMapInsert m p.1 p.2) []

/-- `Array.from(new Map(pairs).values())`. -/
def jsMapValues {α : Type} (pairs : List (String × α)) : List α :=
  (jsMapOfList pairs).map Prod.snd

/-- The key/record pairs fed to the dedup `Map` (`src/server.js:331-336`),
built from the scored and sorted candidate list. -/
def dedupPairs (results : List GeoResult) (searchTerm : String) : List (String × ScoredCity) :=
  (sortByScoreDesc (scoreStage results searchTerm)).map (fun c => (cityKey c, c))

/-- Final projection to the output shape (`src/server.js:338-344`). -/
def toRanked (c : ScoredCity) : RankedCity :=
  { city := c.city, state := c.state, country := c.country
    latitude := c.latitude, longitude := c.longitude }

/-- The whole ranking pipeline of the `GET /cities` handler
(`src/server.js:304-344`): map, filter, sort, Map-dedup, `slice(0, 10)`,
project. -/
def citiesRank (results : List GeoResult) (searchTerm : String) : List RankedCity :=
  ((jsMapValues (dedupPairs results searchTerm)).take 10).map toRanked

/-! ### What the dedup `Map` keeps -/

/-- `Map.prototype.get` on the association-list model. -/
def mapLookup {α : Type} (m : List (String × α)) (k : String) : Option α :=
  (m.find? (fun p => p.1 = k)).map Prod.snd

/-- The value of the last pair with the given key, if any. -/
def lastVal {α : Type} (pairs : List (String × α)) (k : String) : Option α :=
  pairs.foldl (fun acc p => if p.1 = k then some p.2 else acc) none

/-- How many pairs of the list carry the given key. -/
def keyCount {α : Type} (m : List (String × α)) (k : String) : Nat :=
  (m.filter (fun p => p.1 = k)).length

/-- A geocoder result whose city is "X" (with state "-"): dedup key "x---",
score 100 against the term "x". -/
def geoX : GeoResult :=
  { components := { city := some "X", state := some "-" }
    lat := 1, lng := 1, formatted := "X" }

/-- A geocoder result whose city is "X-" (no state): the same dedup key "x---"
as `geoX`, but score 95 against the term "x". -/
def geoXDash : GeoResult :=
  { components := { city := some "X-" }
    lat := 2, lng := 2, formatted := "X-" }

/-! ## Weather Trait Mapper (`weatherTraits`, `generateHoroscope`,
`getTemperatureTraits`, `src/server.js:501-803`) -/

/-- One entry of the `weatherTraits` table: a list of trait lines and a mood. -/
structure TraitEntry where
  traits : List String
  mood : String
deriving DecidableEq

/-- The `weatherTraits[0]` entry (clear sky), named because the C5 scenario
selects it. -/
def clearSkyTraits : TraitEntry :=
  { traits := ["You have a bright and sunny personality",
               "You bring clarity to difficult situations",
               "You're naturally optimistic",
               "You thrive in the spotlight"]
    mood := "Your energy radiates like the clear sky on your special day!" }

/-- The `weatherTraits` object of `src/server.js:501-664` (the code-keyed
variant used by `generateHoroscope`), as a lookup from the numeric key. -/
def weatherTraitsTable (code : Int) : Option TraitEntry :=
  if code = 0 then some clearSkyTraits
  else if code = 1 then some
    { traits := ["You're mostly straightforward but keep some mystery",
                 "You have a calm and steady presence",
                 "You're good at finding silver linings",
                 "You appreciate life's simple pleasures"]
      mood := "Like a day with gentle clouds, you bring both light and depth to those around you." }
  else if code = 2 then some
    { traits := ["You have a complex and interesting personality",
                 "You're adaptable to change",
                 "You see both sides of every situation",
                 "You're thoughtful and contemplative"]
      mood := "Your versatile nature helps you navigate life's changing seasons." }
  else if code = 3 then some
    { traits := ["You're deep and introspective",
                 "You have rich inner thoughts",
                 "You're protective of those you love",
                 "You have hidden depths that surprise people"]
      mood := "Like an overcast sky, you carry depth and mystery that others find intriguing." }
  else if code = 45 then some
    { traits := ["You're mysterious and enigmatic",
                 "You have a dreamy perspective on life",
                 "You help others see things differently",
                 "You're comfortable with uncertainty"]
      mood := "Your mysterious nature adds intrigue to everyday situations." }
  else if code = 48 then some
    { traits := ["You combine mystery with sharp clarity",
                 "You see beauty in subtle things",
                 "You have a cool, collected demeanor",
                 "You bring fresh perspectives"]
      mood := "Your unique perspective helps others see the world in new ways." }
  else if code = 51 then some
    { traits := ["You're gentle and nurturing",
                 "You have a subtle but lasting impact",
                 "You're refreshing to be around",
                 "You bring growth to everything you touch"]
      mood := "Like a gentle drizzle, you nurture growth in others." }
  else if code = 53 then some
    { traits := ["You provide steady support",
                 "You're consistently reliable",
                 "You help things grow and flourish",
                 "You have a calming presence"]
      mood := "Your steady presence helps others thrive and grow." }
  else if code = 55 then some
    { traits := ["You're deeply nurturing",
                 "You have a powerful impact on others",
                 "You're intensely caring",
                 "You create environments where others flourish"]
      mood := "Your nurturing nature creates positive change in others' lives." }
  else if code = 61 then some
    { traits := ["You're emotional and deeply feeling",
                 "You cleanse negative energy",
                 "You're naturally nurturing",
                 "You help others grow and flourish"]
      mood := "Your emotional depth brings renewal and growth to relationships." }
  else if code = 63 then some
    { traits := ["You have strong emotional intelligence",
                 "You wash away others' troubles",
                 "You're deeply compassionate",
                 "You bring renewal to situations"]
      mood := "Your presence brings refreshing change to any situation." }
  else if code = 65 then some
    { traits := ["You have powerful emotions",
                 "You create major positive changes",
                 "You're intensely passionate",
                 "You have a transformative presence"]
      mood := "Your powerful presence transforms situations and inspires others." }
  else if code = 71 then some
    { traits := ["You're pure-hearted and unique",
                 "You transform environments you enter",
                 "You bring magic to ordinary moments",
                 "You have a peaceful presence"]
      mood := "Like snowflakes, you bring unique beauty to the world." }
  else if code = 73 then some
    { traits := ["You create magical environments",
                 "You transform situations beautifully",
                 "You bring peace and tranquility",
                 "You have a magical effect on others"]
      mood := "Your presence transforms ordinary moments into magical experiences." }
  else if code = 75 then some
    { traits := ["You create profound transformations",
                 "You bring deep peace to others",
                 "You have a powerful calming presence",
                 "You create magical environments"]
      mood := "Your presence creates profound and beautiful transformations." }
  else if code = 95 then some
    { traits := ["You have a powerful presence",
                 "You're energetic and dynamic",
                 "You create lasting impressions",
                 "You're a force of nature"]
      mood := "Your powerful energy creates memorable moments wherever you go." }
  else if code = 96 then some
    { traits := ["You're incredibly impactful",
                 "You leave lasting impressions",
                 "You have a dramatic presence",
                 "You create unforgettable moments"]
      mood := "Your dramatic presence leaves unforgettable impressions on others." }
  else if code = 99 then some
    { traits := ["You have an extremely powerful presence",
                 "You create major transformations",
                 "You're unforgettable to others",
                 "You're a true force of nature"]
      mood := "Your incredible presence creates powerful transformations in others' lives." }
  else none

/-- `Object.keys(weatherTraits).map(Number)` — integer-like keys enumerate in
ascending numeric order. -/
def weatherCodesList : List Int :=
  [0, 1, 2, 3, 45, 48, 51, 53, 55, 61, 63, 65, 71, 73, 75, 95, 96, 99]

/-- The closest-code `reduce` of `generateHoroscope` (`src/server.js:762-764`):
`weatherCodes.reduce((prev, curr) => |curr - wc| < |prev - wc| ? curr : prev)`
— no initial value, so the first key seeds the fold and ties keep `prev`. -/
def closestWeatherCode (wc : Int) : Int :=
  match weatherCodesList with
  | [] => wc
  | c :: cs =>
      cs.foldl (fun prev curr =>
        if (curr - wc).natAbs < (prev - wc).natAbs then curr else prev) c

/-- The ">35" band of `getTemperatureTraits` (`src/server.js:670-679`). -/
def tempTraitsOver35 : TraitEntry :=
  { traits := ["You have an incredibly energetic personality",
               "Your passion burns bright and hot",
               "You bring intense energy to everything",
               "You naturally ignite others' enthusiasm"]
    mood := "Your fiery personality ignites passion in others!" }

/-- The ">30" band of `getTemperatureTraits` (`src/server.js:680-689`). -/
def tempTraitsOver30 : TraitEntry :=
  { traits := ["You have a fiery and passionate nature",
               "You bring warmth to all your relationships",
               "You thrive in high-energy situations",
               "You naturally motivate others"]
    mood := "Your warm personality lights up any room you enter!" }

/-- `getTemperatureTraits(maxTemp, minTemp)` from `src/server.js:667-751`:
eight bands over the mean of the two temperatures. -/
def getTemperatureTraits (maxTemp minTemp : ℚ) : TraitEntry :=
  let avgTemp := (maxTemp + minTemp) / 2
  if avgTemp > 35 then tempTraitsOver35
  else if avgTemp > 30 then tempTraitsOver30
  else if avgTemp > 25 then
    { traits := ["You have a warm and energetic personality",
                 "You create comfortable environments",
                 "You bring out the best in others",
                 "You naturally encourage growth"]
      mood := "Your warm presence helps others flourish and grow." }
  else if avgTemp > 20 then
    { traits := ["You have a warm and balanced personality",
                 "You make others feel comfortable",
                 "You're adaptable and easy-going",
                 "You bring harmony to group situations"]
      mood := "Your comfortable presence puts others at ease." }
  else if avgTemp > 15 then
    { traits := ["You have a cool and collected nature",
                 "You think clearly under pressure",
                 "You're refreshing to be around",
                 "You bring perspective to heated situations"]
      mood := "Your cool composure helps others find balance." }
  else if avgTemp > 10 then
    { traits := ["You have a crisp and clear personality",
                 "You bring fresh perspectives",
                 "You help others think clearly",
                 "You're naturally refreshing"]
      mood := "Your crisp energy brings clarity to confusion." }
  else if avgTemp > 5 then
    { traits := ["You have a sharp and clear mind",
                 "You cut through confusion easily",
                 "You bring clarity to others",
                 "You're naturally precise"]
      mood := "Your sharp clarity helps others see truth." }
  else
    { traits := ["You have a crystal-clear mind",
                 "You stay cool in any situation",
                 "You're refreshingly honest",
                 "You preserve your energy well"]
      mood := "Your cool clarity brings truth to light." }

/-- The ">30" (highest) band of the four-band `getTemperatureTraits` variant
in `src/unnamed/part_002:115-124`. -/
def p2TempTraitsOver30 : TraitEntry :=
  { traits := ["You have a fiery and passionate nature",
               "You bring warmth to all your relationships",
               "You thrive in high-energy situations",
               "You naturally motivate others"]
    mood := "Your warm personality lights up any room you enter!" }

/-- `getTemperatureTraits(maxTemp, minTemp)` as implemented in
`src/unnamed/part_002:112-156`: four bands over the mean. -/
def getTemperatureTraitsP2 (maxTemp minTemp : ℚ) : TraitEntry :=
  let avgTemp := (maxTemp + minTemp) / 2
  if avgTemp > 30 then p2TempTraitsOver30
  else if avgTemp > 20 then
    { traits := ["You have a warm and balanced personality",
                 "You make others feel comfortable",
                 "You're adaptable and easy-going",
                 "You bring harmony to group situations"]
      mood := "Your comfortable presence puts others at ease." }
  else if avgTemp > 10 then
    { traits := ["You have a cool and collected nature",
                 "You think clearly under pressure",
                 "You're refreshing to be around",
                 "You bring perspective to heated situations"]
      mood := "Your cool composure helps others find balance." }
  else
    { traits := ["You have a crystal-clear mind",
                 "You stay cool in any situation",
                 "You're refreshingly honest",
                 "You preserve your energy well"]
      mood := "Your crisp energy brings clarity to confusion." }

/-- The one-day `daily` series read by `generateHoroscope`
(`weathercode[0]`, `temperature_2m_max[0]`, `temperature_2m_min[0]`,
`precipitation_sum[0]`). -/
structure DailyWeather where
  weathercode : Int
  temperature_2m_max : ℚ
  temperature_2m_min : ℚ
  precipitation_sum : ℚ
deriving DecidableEq

/-- The horoscope object built by `generateHoroscope` (`src/server.js:773-780`). -/
structure Horoscope where
  weather_summary : String
  temperature_insight : String
  personality_traits : List String
deriving DecidableEq

/-- `generateHoroscope(weatherData)` from `src/server.js:754-803`. The two
`Math.floor(Math.random() * traits.length)` draws are passed in as the indices
`weatherRandIdx` and `tempRandIdx` (each below 4 for every actual draw, all
trait lists having four entries); out-of-range indices read as `""` the way
`undefined` would. -/
def generateHoroscope (daily : DailyWeather) (weatherRandIdx tempRandIdx : Nat) : Horoscope :=
  let weatherPersonality :=
    (weatherTraitsTable (closestWeatherCode daily.weathercode)).getD ⟨[], ""⟩
  let tempPersonality := getTemperatureTraits daily.temperature_2m_max daily.temperature_2m_min
  let base : Horoscope :=
    { weather_summary := weatherPersonality.mood
      temperature_insight := tempPersonality.mood
      personality_traits :=
        [weatherPersonality.traits.getD weatherRandIdx "",
         tempPersonality.traits.getD tempRandIdx ""] }
  if daily.precipitation_sum > 0 then
    if daily.precipitation_sum > 30 then
      { base with personality_traits := base.personality_traits ++
          ["You have profound emotional depth",
           "You create powerful transformations in others"] }
    else if daily.precipitation_sum > 15 then
      { base with personality_traits := base.personality_traits ++
          ["You have strong emotional intelligence",
           "You help others grow and develop"] }
    else
      { base with personality_traits := base.personality_traits ++
          ["You're not afraid to show your emotions",
           "You help others grow and flourish"] }
  else base

/-! ## `GET /weather` handler status taxonomy (`src/server.js:1028-1120`) -/

/-- JS falsiness of a query parameter: absent (`undefined`) or the empty
string. -/
def jsFalsyOpt : Option String → Bool
  | none => true
  | some s => s = ""

/-- A StrWhiteSpaceChar of the ECMAScript string-to-number grammar:
WhiteSpace (tab, VT, FF, space, NBSP, ZWNBSP and the Unicode space
separators) or a LineTerminator (LF, CR, LS, PS). -/
def jsIsWhiteSpace (c : Char) : Bool :=
  c = ' ' || c = '\t' || c = '\n' || c = '\r' ||
  c = '\x0b' || c = '\x0c' ||
  c.val = 0xa0 || c.val = 0xfeff ||
  c.val = 0x1680 || (0x2000 ≤ c.val && c.val ≤ 0x200a) ||
  c.val = 0x202f || c.val = 0x205f || c.val = 0x3000 ||
  c.val = 0x2028 || c.val = 0x2029

/-- A hexadecimal digit. -/
def isHexDigitChar (c : Char) : Bool :=
  c.isDigit || ('a' ≤ c && c ≤ 'f') || ('A' ≤ c && c ≤ 'F')

/-- An octal digit. -/
def isOctalDigitChar (c : Char) : Bool :=
  '0' ≤ c && c ≤ '7'

/-- A binary digit. -/
def isBinaryDigitChar (c : Char) : Bool :=
  c = '0' || c = '1'

/-- A NonDecimalIntegerLiteral of the ECMAScript string-to-number grammar:
`0x`/`0X`, `0o`/`0O` or `0b`/`0B` followed by one or more digits of the
matching base; it takes no sign. -/
def nonDecimalLiteral : List Char → Bool
  | '0' :: b :: rest =>
      if b = 'x' || b = 'X' then !rest.isEmpty && rest.all isHexDigitChar
      else if b = 'o' || b = 'O' then !rest.isEmpty && rest.all isOctalDigitChar
      else if b = 'b' || b = 'B' then !rest.isEmpty && rest.all isBinaryDigitChar
      else false
  | _ => false

/-- One or more decimal digits. -/
def isDigits (l : List Char) : Bool :=
  !l.isEmpty && l.all (·.isDigit)

/-- Exponent digits with an optional sign. -/
def expDigits : List Char → Bool
  | '+' :: r => isDigits r
  | '-' :: r => isDigits r
  | r => isDigits r

/-- An optional trailing exponent part (`e`/`E`, optional sign, digits). -/
def expTail : List Char → Bool
  | [] => true
  | 'e' :: r => expDigits r
  | 'E' :: r => expDigits r
  | _ => false

/-- Unsigned decimal mantissa with optional fraction and exponent:
`digits`, `digits.digits?`, or `.digits`, each optionally followed by an
exponent. -/
def mantissaExp (l : List Char) : Bool :=
  let intPart := l.takeWhile (·.isDigit)
  let rest := l.dropWhile (·.isDigit)
  match rest with
  | [] => !intPart.isEmpty
  | '.' :: rest2 =>
      let fracPart := rest2.takeWhile (·.isDigit)
      let rest3 := rest2.dropWhile (·.isDigit)
      (!intPart.isEmpty || !fracPart.isEmpty) && expTail rest3
  | _ => !intPart.isEmpty && expTail rest

/-- A StrNumericLiteral of the ECMAScript string-to-number grammar: a
StrDecimalLiteral — an optional sign and then `Infinity` or a decimal
mantissa — or an unsigned NonDecimalIntegerLiteral. -/
def signedNumeric : List Char → Bool
  | '+' :: r => r = "Infinity".data || mantissaExp r
  | '-' :: r => r = "Infinity".data || mantissaExp r
  | l => l = "Infinity".data || mantissaExp l || nonDecimalLiteral l

/-- `isNaN(s)` for a string `s` as the handler uses it on coordinates.
ECMAScript fixes this completely: the string is stripped of StrWhiteSpace on
both sides, an empty remainder coerces to 0 (not NaN), and otherwise the
remainder must be a StrNumericLiteral — a signed decimal or `Infinity`
literal, or an unsigned hexadecimal, octal or binary literal. -/
def jsNumberIsNaN (s : String) : Bool :=
  let t := (s.data.dropWhile jsIsWhiteSpace).reverse.dropWhile jsIsWhiteSpace |>.reverse
  if t.isEmpty then false else !signedNumeric t

/-- Days per month in the proleptic Gregorian calendar. -/
def daysInMonth (y m : Nat) : Nat :=
  if m = 2 then (if (y % 4 = 0 && y % 100 ≠ 0) || y % 400 = 0 then 29 else 28)
  else if m = 4 || m = 6 || m = 9 || m = 11 then 30
  else 31

/-- Digits to the number they denote. -/
def digitsToNat (l : List Char) : Nat :=
  l.foldl (fun a c => a * 10 + (c.toNat - '0'.toNat)) 0

/-- One concrete date-validity predicate: the date-only `YYYY-MM-DD` form of
the ECMAScript Date Time String Format, with month 1-12 and day within the
month, which is the format the endpoint documents and which every JS engine
accepts. `new Date(s)` also accepts other forms (`"2024"`, datetimes, and
implementation-specific heuristics such as `"2024-1-5"`), so the handler model
below takes the validity test as a parameter; this predicate serves to
instantiate it on concrete inputs of the documented format. -/
def isoDateValid (s : String) : Bool :=
  match s.data with
  | [y1, y2, y3, y4, '-', m1, m2, '-', d1, d2] =>
      [y1, y2, y3, y4, m1, m2, d1, d2].all (·.isDigit) &&
      (let y := digitsToNat [y1, y2, y3, y4]
       let m := digitsToNat [m1, m2]
       let d := digitsToNat [d1, d2]
       (1 ≤ m && m ≤ 12 && 1 ≤ d && d ≤ daysInMonth y m : Bool))
  | _ => false

/-- The query parameters of `GET /weather`. -/
structure WeatherQuery where
  latitude : Option String
  longitude : Option String
  date : Option String
deriving DecidableEq

/-- What the upstream weather call produces, as far as the handler's status
logic reads it: a response whose `daily?.temperature_2m_max` is the given
optional array, an HTTP error response with a status, or a network error with
no response at all. -/
inductive UpstreamOutcome where
  | ok (temperature_2m_max : Option (List ℚ))
  | httpError (status : Nat)
  | netError
deriving DecidableEq

/-- The HTTP status the `GET /weather` handler responds with on a cache miss
(`src/server.js:1028-1120`): 400 for a missing parameter, non-numeric
coordinates, or an invalid date — in that order, before the upstream call —
then 404 when `!weatherData.daily?.temperature_2m_max?.length`, 200 on
success; in the catch, 404 when `error.response?.status === 404` and 500
otherwise. The date check `isNaN(new Date(date).getTime())` enters the model
through the parameter `dateValid`: ECMAScript leaves `new Date(string)` beyond
the Date Time String Format to implementation-defined heuristics, and the
handler consults the date only through this one test. -/
def weatherStatus (dateValid : String → Bool) (q : WeatherQuery) (u : UpstreamOutcome) : Nat :=
  if jsFalsyOpt q.latitude || jsFalsyOpt q.longitude || jsFalsyOpt q.date then 400
  else if jsNumberIsNaN (q.latitude.getD "") || jsNumberIsNaN (q.longitude.getD "") then 400
  else if !(dateValid (q.date.getD "")) then 400
  else
    match u with
    | .ok none => 404
    | .ok (some temps) => if temps.isEmpty then 404 else 200
    | .httpError st => if st = 404 then 404 else 500
    | .netError => 500

/-- A required parameter is missing or invalid, as the claim phrases it, with
the same date-validity test `dateValid` the handler consults. -/
def paramsInvalid (dateValid : String → Bool) (q : WeatherQuery) : Bool :=
  jsFalsyOpt q.latitude || jsFalsyOpt q.longitude || jsFalsyOpt q.date ||
  jsNumberIsNaN (q.latitude.getD "") || jsNumberIsNaN (q.longitude.getD "") ||
  !(dateValid (q.date.getD ""))

/-- The upstream responded but carries no usable daily data: a response with a
missing or empty `temperature_2m_max` series, or an upstream 404. -/
def upstreamNoData : UpstreamOutcome → Bool
  | .ok none => true
  | .ok (some temps) => temps.isEmpty
  | .httpError st => st = 404
  | .netError => false

/-- Any other upstream failure: a non-404 HTTP error or a network error. -/
def upstreamOtherFailure : UpstreamOutcome → Bool
  | .ok _ => false
  | .httpError st => st ≠ 404
  | .netError => true

/-! ## Lemmas and claim theorems -/

theorem splitOnSpaceAux_ne_nil (l acc : List Char) : splitOnSpaceAux l acc ≠ [] := by
  induction l generalizing acc with
  | nil => simp [splitOnSpaceAux]
  | cons c cs ih =>
      simp only [splitOnSpaceAux]
      split
      · simp
      · exact ih _

theorem jsSplitOnSpace_ne_nil (s : String) : jsSplitOnSpace s ≠ [] :=
  splitOnSpaceAux_ne_nil _ _

/-- C1 counterexample: on candidate "ab  cd" and search term "a  c" the rules
as the claim words them give 85 (every search word — "a", "", "c" — is a prefix
of the corresponding candidate word "ab", "", "cd"), but the code returns 0:
the `cityWords[index] &&` truthiness guard rejects the empty candidate word. -/
theorem c1_matchQuality_counterexample :
    specMatchQuality "ab  cd" "a  c" = 85 ∧ calculateMatchQuality "ab  cd" "a  c" = 0 :=
  ⟨by decide, by decide⟩

/-- C1 (amended): `calculateMatchQuality` applies its rules in strict order on
the lower-cased strings and returns on the first that fires — equality 100,
full prefix 95, first-word prefix with a one-word term 90, several words each a
prefix of the corresponding **non-empty** candidate word 85, substring 70,
otherwise 0 — and the result is always in [0,100]. -/
theorem c1_matchQuality_amended (cityName searchTerm : String) :
    calculateMatchQuality cityName searchTerm = specMatchQualityAmended cityName searchTerm ∧
    calculateMatchQuality cityName searchTerm ≤ 100 := by
  obtain ⟨s0, sws, hs⟩ := List.exists_cons_of_ne_nil (jsSplitOnSpace_ne_nil (jsToLower searchTerm))
  obtain ⟨c0, cws, hc⟩ := List.exists_cons_of_ne_nil (jsSplitOnSpace_ne_nil (jsToLower cityName))
  constructor
  · simp only [calculateMatchQuality, specMatchQualityAmended, hs, hc]
    split_ifs <;> simp_all
  · simp only [calculateMatchQuality, hs, hc]
    split_ifs <;> simp_all

theorem jsToLower_eq_empty_iff (s : String) : jsToLower s = "" ↔ s = "" := by
  constructor
  · intro h
    obtain ⟨l⟩ := s
    have hd : (String.mk (l.map Char.toLower)).data = (String.mk []).data := congrArg String.data h
    simp only [List.map_eq_nil_iff] at hd
    exact congrArg String.mk hd
  · intro h
    rw [h]
    rfl

/-- C9: with the empty search term the scorer never returns 0 — the empty
string equals only the empty candidate (100), and every other lower-cased
candidate starts with the empty search term (95). -/
theorem c9_empty_term_never_zero (candidate : String) :
    calculateMatchQuality candidate "" = (if candidate = "" then 100 else 95) ∧
    calculateMatchQuality candidate "" ≠ 0 := by
  have hlow : jsToLower "" = "" := rfl
  have hstarts : jsStartsWith (jsToLower candidate) "" = true := by
    unfold jsStartsWith
    cases (jsToLower candidate).data <;> rfl
  have hmain : calculateMatchQuality candidate "" = (if candidate = "" then 100 else 95) := by
    simp only [calculateMatchQuality, hlow, hstarts, if_true, jsToLower_eq_empty_iff]
  refine ⟨hmain, ?_⟩
  rw [hmain]
  split <;> simp

/-- C7 (code bug): the alias lookup hits the prototype chain. For the input
"constructor" the expression `countryMappings['constructor']` yields the
inherited, truthy `Object.prototype.constructor`, so the function returns
that object instead of the unmapped input string, and a second application
would call `.toLowerCase()` on a non-string and throw — so neither
"unmapped input is returned unchanged" nor idempotence holds over every
string, although inputs that reach neither an alias entry nor a prototype
property (such as "France") do come back unchanged and alias values (such as
the image of "usa") are fixed points. -/
theorem c7_normalize_prototype_bug :
    normalizeCountryNameJS "constructor" = JsLookupResult.inheritedObject "constructor" ∧
    JsLookupResult.inheritedObject "constructor" ≠ JsLookupResult.str "constructor" ∧
    normalizeCountryNameJS "__proto__" = JsLookupResult.inheritedObject "__proto__" ∧
    normalizeCountryNameJS "France" = JsLookupResult.str "France" ∧
    normalizeCountryNameJS "usa" = JsLookupResult.str "united states" ∧
    normalizeCountryNameJS "united states" = JsLookupResult.str "united states" :=
  ⟨by decide, by decide, by decide, by decide, by decide, by decide⟩

theorem fst_update {α : Type} (k : String) (v : α) (p : String × α) :
    (if p.1 = k then (p.1, v) else p).1 = p.1 := by
  split <;> rfl

theorem lookup_update_ne {α : Type} (m : List (String × α)) (k j : String) (v : α)
    (hjk : j ≠ k) :
    mapLookup (m.map (fun p => if p.1 = k then (p.1, v) else p)) j = mapLookup m j := by
  induction m with
  | nil => rfl
  | cons p t ih =>
      unfold mapLookup at ih ⊢
      simp only [List.map_cons, List.find?_cons, fst_update]
      by_cases hp : p.1 = j
      · have hpk : ¬ p.1 = k := fun h => hjk (hp ▸ h)
        simp [hp, hpk, hjk]
      · simp only [decide_eq_false hp]
        exact ih

theorem lookup_update_eq {α : Type} (m : List (String × α)) (k : String) (v : α)
    (h : m.any (fun p => p.1 = k) = true) :
    mapLookup (m.map (fun p => if p.1 = k then (p.1, v) else p)) k = some v := by
  induction m with
  | nil => simp at h
  | cons p t ih =>
      simp only [List.any_cons, Bool.or_eq_true, decide_eq_true_eq] at h
      unfold mapLookup at ih ⊢
      simp only [List.map_cons, List.find?_cons, fst_update]
      by_cases hp : p.1 = k
      · simp [hp]
      · simp only [decide_eq_false hp]
        exact ih (h.resolve_left hp)

theorem lookup_append_single {α : Type} (m : List (String × α)) (k j : String) (v : α)
    (h : m.any (fun p => p.1 = k) = false) :
    mapLookup (m ++ [(k, v)]) j = if j = k then some v else mapLookup m j := by
  induction m with
  | nil =>
      unfold mapLookup
      simp only [List.nil_append, List.find?_cons]
      by_cases hj : j = k
      · simp [hj]
      · have hkj : ¬ k = j := fun h' => hj h'.symm
        simp [hj, hkj]
  | cons p t ih =>
      simp only [List.any_cons, Bool.or_eq_false_iff, decide_eq_false_iff_not] at h
      unfold mapLookup at ih ⊢
      simp only [List.cons_append, List.find?_cons]
      by_cases hp : p.1 = j
      · have hjk : ¬ j = k := fun he => h.1 (hp.trans he)
        simp [hp, hjk]
      · simp only [decide_eq_false hp]
        exact ih (by simp [h.2])

theorem mapLookup_insert {α : Type} (m : List (String × α)) (k j : String) (v : α) :
    mapLookup (jsMapInsert m k v) j = if j = k then some v else mapLookup m j := by
  unfold jsMapInsert
  cases hany : m.any (fun p => p.1 = k) with
  | true =>
      rw [if_pos rfl]
      by_cases hj : j = k
      · subst hj
        rw [if_pos rfl]
        exact lookup_update_eq m j v hany
      · rw [if_neg hj]
        exact lookup_update_ne m k j v hj
  | false =>
      rw [if_neg Bool.false_ne_true]
      exact lookup_append_single m k j v hany

theorem lastVal_override {α : Type} (t : List (String × α)) (j : String) (a : Option α) :
    t.foldl (fun acc p => if p.1 = j then some p.2 else acc) a =
      match t.foldl (fun acc p => if p.1 = j then some p.2 else acc) none with
      | some w => some w
      | none => a := by
  induction t generalizing a with
  | nil => rfl
  | cons q t ih =>
      simp only [List.foldl_cons]
      rw [ih (if q.1 = j then some q.2 else a), ih (if q.1 = j then some q.2 else none)]
      cases t.foldl (fun acc p => if p.1 = j then some p.2 else acc) none with
      | some w => rfl
      | none =>
          by_cases hq : q.1 = j
          · rw [if_pos hq, if_pos hq]
          · rw [if_neg hq, if_neg hq]

theorem lastVal_cons {α : Type} (p : String × α) (t : List (String × α)) (j : String) :
    lastVal (p :: t) j =
      match lastVal t j with
      | some w => some w
      | none => if p.1 = j then some p.2 else none := by
  unfold lastVal
  simp only [List.foldl_cons]
  exact lastVal_override t j (if p.1 = j then some p.2 else none)

theorem mapLookup_foldl {α : Type} (ps : List (String × α)) (m : List (String × α))
    (j : String) :
    mapLookup (ps.foldl (fun acc p => jsMapInsert acc p.1 p.2) m) j =
      match lastVal ps j with
      | some w => some w
      | none => mapLookup m j := by
  induction ps generalizing m with
  | nil => rfl
  | cons p t ih =>
      simp only [List.foldl_cons]
      rw [ih (jsMapInsert m p.1 p.2), mapLookup_insert, lastVal_cons]
      cases lastVal t j with
      | some w => rfl
      | none =>
          by_cases hp : p.1 = j
          · rw [if_pos hp, if_pos hp.symm]
          · rw [if_neg hp, if_neg (fun h => hp h.symm)]

theorem keyCount_map_update {α : Type} (m : List (String × α)) (k : String) (v : α)
    (j : String) :
    keyCount (m.map (fun p => if p.1 = k then (p.1, v) else p)) j = keyCount m j := by
  induction m with
  | nil => rfl
  | cons p t ih =>
      unfold keyCount at ih ⊢
      simp only [List.map_cons, List.filter_cons, fst_update]
      by_cases hp : p.1 = j
      · simp [decide_eq_true hp, ih]
      · simp [decide_eq_false hp, ih]

theorem keyCount_append_single {α : Type} (m : List (String × α)) (k : String) (v : α)
    (j : String) :
    keyCount (m ++ [(k, v)]) j = keyCount m j + (if j = k then 1 else 0) := by
  unfold keyCount
  rw [List.filter_append, List.length_append]
  simp only [List.filter_cons, List.filter_nil]
  by_cases hj : j = k
  · simp [hj]
  · have hkj : ¬ k = j := fun h' => hj h'.symm
    simp [hj, hkj]

theorem keyCount_eq_zero_of_any_false {α : Type} (m : List (String × α)) (k : String)
    (h : m.any (fun p => p.1 = k) = false) : keyCount m k = 0 := by
  induction m with
  | nil => rfl
  | cons p t ih =>
      simp only [List.any_cons, Bool.or_eq_false_iff, decide_eq_false_iff_not] at h
      unfold keyCount at ih ⊢
      simp only [List.filter_cons, decide_eq_false h.1]
      exact ih (by simp [h.2])

theorem keyCount_insert_le {α : Type} (m : List (String × α)) (k : String) (v : α)
    (j : String) (h : keyCount m j ≤ 1) : keyCount (jsMapInsert m k v) j ≤ 1 := by
  unfold jsMapInsert
  cases hany : m.any (fun p => p.1 = k) with
  | true =>
      rw [if_pos rfl, keyCount_map_update]
      exact h
  | false =>
      rw [if_neg Bool.false_ne_true, keyCount_append_single]
      by_cases hj : j = k
      · subst hj
        rw [keyCount_eq_zero_of_any_false m j hany]
        simp
      · simp [hj, h]

theorem keyCount_foldl_le {α : Type} (ps : List (String × α)) (m : List (String × α))
    (j : String) (h : keyCount m j ≤ 1) :
    keyCount (ps.foldl (fun acc p => jsMapInsert acc p.1 p.2) m) j ≤ 1 := by
  induction ps generalizing m with
  | nil => exact h
  | cons p t ih =>
      simp only [List.foldl_cons]
      exact ih _ (keyCount_insert_le m p.1 p.2 j h)

/-- C2 counterexample: `geoX` (score 100, latitude 1) and `geoXDash` (score 95,
latitude 2) collide on the dedup key "x---"; after the descending sort places
the higher-scored `geoX` first, the `Map`-based dedup nevertheless outputs the
record of `geoXDash` — `Map.set` overwrites the value of an existing key, so
the **last** (lower-scored) record survives, not the first. -/
theorem c2_dedup_counterexample :
    citiesRank [geoX, geoXDash] "x" =
      [{ city := "X-", state := none, country := "", latitude := 2, longitude := 2 }] ∧
    (mapResult "x" geoX).map cityKey = some "x---" ∧
    (mapResult "x" geoXDash).map cityKey = some "x---" ∧
    calculateMatchQuality "X" "x" = 100 ∧
    calculateMatchQuality "X-" "x" = 95 :=
  ⟨by decide, by decide, by decide, by decide, by decide⟩

/-- C2 (amended): when scored candidates share the same lowercase
(city, state, country) key, the `Map`-based deduplication keeps exactly one of
them — the **last** occurrence in the sorted candidate list (the lowest-scored
among them, the list being sorted non-increasingly), whose record (including
its latitude and longitude) is what appears, placed at the position where the
key first occurred. -/
theorem c2_dedup_keeps_last (results : List GeoResult) (searchTerm k : String) :
    mapLookup (jsMapOfList (dedupPairs results searchTerm)) k =
      lastVal (dedupPairs results searchTerm) k ∧
    keyCount (jsMapOfList (dedupPairs results searchTerm)) k ≤ 1 := by
  constructor
  · unfold jsMapOfList
    rw [mapLookup_foldl]
    cases lastVal (dedupPairs results searchTerm) k <;> rfl
  · exact keyCount_foldl_le (dedupPairs results searchTerm) [] k (Nat.zero_le 1)

theorem mem_insertDesc {x y : ScoredCity} {l : List ScoredCity} :
    y ∈ insertDesc x l ↔ y = x ∨ y ∈ l := by
  induction l with
  | nil => simp [insertDesc]
  | cons z t ih =>
      unfold insertDesc
      split
      · simp only [List.mem_cons]
      · simp only [List.mem_cons, ih]
        tauto

theorem pairwise_insertDesc (x : ScoredCity) (l : List ScoredCity)
    (h : l.Pairwise (fun a b => b.score ≤ a.score)) :
    (insertDesc x l).Pairwise (fun a b => b.score ≤ a.score) := by
  induction l with
  | nil => simp [insertDesc]
  | cons y t ih =>
      rcases List.pairwise_cons.mp h with ⟨hy, ht⟩
      unfold insertDesc
      by_cases hxy : y.score ≤ x.score
      · rw [if_pos hxy]
        refine List.pairwise_cons.mpr ⟨?_, h⟩
        intro z hz
        rcases List.mem_cons.mp hz with rfl | hz'
        · exact hxy
        · exact le_trans (hy z hz') hxy
      · rw [if_neg hxy]
        refine List.pairwise_cons.mpr ⟨?_, ih ht⟩
        intro z hz
        rcases mem_insertDesc.mp hz with rfl | hz'
        · exact le_of_lt (lt_of_not_le hxy)
        · exact hy z hz'

theorem sortByScoreDesc_pairwise (l : List ScoredCity) :
    (sortByScoreDesc l).Pairwise (fun a b => b.score ≤ a.score) := by
  induction l with
  | nil => exact List.Pairwise.nil
  | cons x t ih => exact pairwise_insertDesc x _ ih

theorem mem_sortByScoreDesc {y : ScoredCity} {l : List ScoredCity} :
    y ∈ sortByScoreDesc l ↔ y ∈ l := by
  induction l with
  | nil => exact Iff.rfl
  | cons x t ih =>
      unfold sortByScoreDesc
      rw [mem_insertDesc, List.mem_cons, ih]

/-- C3: the ranked output of the `/cities` pipeline never exceeds 10 entries,
and the scored candidate list is sorted non-increasingly by score before the
dedup and the `slice(0, 10)` truncation — `citiesRank` is literally dedup and
truncation applied after `sortByScoreDesc`. -/
theorem c3_pipeline_capped_and_sorted (results : List GeoResult) (searchTerm : String) :
    (citiesRank results searchTerm).length ≤ 10 ∧
    (sortByScoreDesc (scoreStage results searchTerm)).Pairwise
      (fun a b => b.score ≤ a.score) ∧
    citiesRank results searchTerm =
      ((jsMapValues (dedupPairs results searchTerm)).take 10).map toRanked := by
  refine ⟨?_, sortByScoreDesc_pairwise _, rfl⟩
  unfold citiesRank
  rw [List.length_map, List.length_take]
  exact min_le_left _ _

theorem mem_foldl_insert {α : Type} (ps : List (String × α)) (m : List (String × α))
    (q : String × α) (hq : q ∈ ps.foldl (fun acc p => jsMapInsert acc p.1 p.2) m) :
    q ∈ m ∨ q.2 ∈ ps.map Prod.snd := by
  induction ps generalizing m with
  | nil => exact Or.inl hq
  | cons p t ih =>
      simp only [List.foldl_cons] at hq
      rcases ih (jsMapInsert m p.1 p.2) hq with hmem | htail
      · unfold jsMapInsert at hmem
        split at hmem
        · rcases List.mem_map.mp hmem with ⟨r, hr, hrq⟩
          by_cases hrk : r.1 = p.1
          · rw [if_pos hrk] at hrq
            right
            rw [← hrq]
            simp
          · rw [if_neg hrk] at hrq
            exact Or.inl (hrq ▸ hr)
        · rcases List.mem_append.mp hmem with h1 | h2
          · exact Or.inl h1
          · right
            simp only [List.mem_singleton] at h2
            rw [h2]
            simp
      · right
        rw [List.map_cons]
        exact List.mem_cons_of_mem _ htail

theorem scoreStage_mem (results : List GeoResult) (searchTerm : String) (c : ScoredCity)
    (hc : c ∈ scoreStage results searchTerm) :
    c.score = calculateMatchQuality c.city searchTerm ∧ 0 < c.score := by
  unfold scoreStage at hc
  rcases List.mem_filter.mp hc with ⟨hmem, hscore⟩
  refine ⟨?_, by simpa using hscore⟩
  rcases List.mem_filterMap.mp hmem with ⟨r, _, hr⟩
  unfold mapResult at hr
  dsimp only at hr
  split at hr
  · obtain rfl := Option.some.inj hr
    rfl
  · exact absurd hr (by simp)

/-- C6: a candidate name whose score against the search term is 0 never shows
up in the ranked output of the `/cities` pipeline — the `score > 0` filter runs
before sorting, dedup and truncation. -/
theorem c6_zero_score_excluded (results : List GeoResult) (searchTerm candidate : String)
    (hzero : calculateMatchQuality candidate searchTerm = 0)
    (r : RankedCity) (hr : r ∈ citiesRank results searchTerm) :
    r.city ≠ candidate := by
  unfold citiesRank at hr
  rcases List.mem_map.mp hr with ⟨c, hc, rfl⟩
  have hc1 : c ∈ jsMapValues (dedupPairs results searchTerm) := List.mem_of_mem_take hc
  unfold jsMapValues jsMapOfList at hc1
  rcases List.mem_map.mp hc1 with ⟨q, hq, hq2⟩
  rcases mem_foldl_insert (dedupPairs results searchTerm) [] q hq with h0 | hsnd
  · simp at h0
  · rw [hq2] at hsnd
    have hsorted : c ∈ sortByScoreDesc (scoreStage results searchTerm) := by
      unfold dedupPairs at hsnd
      rw [List.map_map] at hsnd
      simpa using hsnd
    obtain ⟨heq, hpos⟩ :=
      scoreStage_mem results searchTerm c (mem_sortByScoreDesc.mp hsorted)
    intro hcity
    have hcc : c.city = candidate := hcity
    rw [hcc, hzero] at heq
    omega

/-- Witness for C6: "zzz" scores 0 against "x", and the single record the
pipeline returns for `[geoX]` has a different city name. -/
theorem c6_zero_score_excluded_witness :
    ({ city := "X", state := some "-", country := "", latitude := 1, longitude := 1 } :
      RankedCity).city ≠ "zzz" :=
  c6_zero_score_excluded [geoX] "x" "zzz" (by decide) _ (by decide)

theorem foldl_closest_mem (wc : Int) (l : List Int) (a : Int) :
    l.foldl (fun prev curr =>
      if (curr - wc).natAbs < (prev - wc).natAbs then curr else prev) a = a ∨
    l.foldl (fun prev curr =>
      if (curr - wc).natAbs < (prev - wc).natAbs then curr else prev) a ∈ l := by
  induction l generalizing a with
  | nil => exact Or.inl rfl
  | cons c t ih =>
      simp only [List.foldl_cons]
      rcases ih (if (c - wc).natAbs < (a - wc).natAbs then c else a) with h | h
      · rw [h]
        split
        · exact Or.inr (List.mem_cons_self c t)
        · exact Or.inl rfl
      · exact Or.inr (List.mem_cons_of_mem c h)

theorem foldl_closest_le (wc : Int) (l : List Int) (a : Int) :
    ((l.foldl (fun prev curr =>
        if (curr - wc).natAbs < (prev - wc).natAbs then curr else prev) a - wc).natAbs ≤
      (a - wc).natAbs) ∧
    ∀ k ∈ l,
      ((l.foldl (fun prev curr =>
          if (curr - wc).natAbs < (prev - wc).natAbs then curr else prev) a - wc).natAbs ≤
        (k - wc).natAbs) := by
  induction l generalizing a with
  | nil => exact ⟨Nat.le_refl _, fun k hk => absurd hk (List.not_mem_nil k)⟩
  | cons c t ih =>
      simp only [List.foldl_cons]
      have hstep_a : ((if (c - wc).natAbs < (a - wc).natAbs then c else a) - wc).natAbs ≤
          (a - wc).natAbs := by
        split
        · omega
        · exact Nat.le_refl _
      have hstep_c : ((if (c - wc).natAbs < (a - wc).natAbs then c else a) - wc).natAbs ≤
          (c - wc).natAbs := by
        split
        · exact Nat.le_refl _
        · omega
      obtain ⟨ih1, ih2⟩ := ih (if (c - wc).natAbs < (a - wc).natAbs then c else a)
      refine ⟨le_trans ih1 hstep_a, ?_⟩
      intro k hk
      rcases List.mem_cons.mp hk with rfl | hk'
      · exact le_trans ih1 hstep_c
      · exact ih2 k hk'

theorem weatherTraitsTable_total : ∀ k ∈ weatherCodesList, (weatherTraitsTable k).isSome = true := by
  decide

/-- C4: for every weather code, the closest-code `reduce` of `generateHoroscope`
selects a key of the `weatherTraits` table (so the lookup never fails); a code
that is itself a key is selected unchanged, and the selected key minimizes the
absolute difference to the code over all keys of the table. -/
theorem c4_closest_weather_code (wc : Int) :
    closestWeatherCode wc ∈ weatherCodesList ∧
    (weatherTraitsTable (closestWeatherCode wc)).isSome = true ∧
    (wc ∈ weatherCodesList → closestWeatherCode wc = wc) ∧
    ∀ k ∈ weatherCodesList,
      (closestWeatherCode wc - wc).natAbs ≤ (k - wc).natAbs := by
  have hdef : closestWeatherCode wc =
      ([1, 2, 3, 45, 48, 51, 53, 55, 61, 63, 65, 71, 73, 75, 95, 96, 99] : List Int).foldl
        (fun prev curr => if (curr - wc).natAbs < (prev - wc).natAbs then curr else prev)
        0 := rfl
  have hmem : closestWeatherCode wc ∈ weatherCodesList := by
    rw [hdef]
    rcases foldl_closest_mem wc
        ([1, 2, 3, 45, 48, 51, 53, 55, 61, 63, 65, 71, 73, 75, 95, 96, 99] : List Int) 0 with
      h | h
    · rw [h]
      decide
    · exact List.mem_cons_of_mem 0 h
  have hle : ∀ k ∈ weatherCodesList,
      (closestWeatherCode wc - wc).natAbs ≤ (k - wc).natAbs := by
    intro k hk
    obtain ⟨h1, h2⟩ := foldl_closest_le wc
      ([1, 2, 3, 45, 48, 51, 53, 55, 61, 63, 65, 71, 73, 75, 95, 96, 99] : List Int) 0
    simp only [weatherCodesList, List.mem_cons] at hk
    rw [hdef]
    rcases hk with rfl | hk'
    · exact h1
    · exact h2 k (by simpa using hk')
  refine ⟨hmem, weatherTraitsTable_total _ hmem, ?_, hle⟩
  intro hwc
  have h0 := hle wc hwc
  omega

/-- Witness for C4: 47 is not a key and resolves to the nearer key 48 (48 is
at distance 1, 45 at distance 2), and the key 61 resolves to itself. -/
theorem c4_closest_weather_code_witness :
    ((closestWeatherCode 47 - 47).natAbs ≤ ((45 : Int) - 47).natAbs) ∧
    closestWeatherCode 61 = 61 :=
  ⟨(c4_closest_weather_code 47).2.2.2 45 (by decide),
   (c4_closest_weather_code 61).2.2.1 (by decide)⟩

/-- C5 counterexample: with maxTemp 38 and minTemp 30 the mean is 34, which is
**not** above 35, so the eight-band `getTemperatureTraits` of `src/server.js`
returns the ">30" band, not the ">35" (highest) band the claim names. -/
theorem c5_scenario_counterexample :
    getTemperatureTraits 38 30 = tempTraitsOver30 ∧
    tempTraitsOver30 ≠ tempTraitsOver35 ∧
    ((38 : ℚ) + 30) / 2 = 34 ∧
    ¬ ((34 : ℚ) > 35) := by
  refine ⟨?_, by decide, by norm_num, by norm_num⟩
  unfold getTemperatureTraits
  rw [if_neg (by norm_num), if_pos (by norm_num)]

/-- C5 (amended): for weatherCode 0, maxTemp 38, minTemp 30, the trait mapper
selects the clear-sky category, and the temperature trait comes from the ">30"
band — the mean (38+30)/2 = 34 is not above 35, so the eight-band table of
`src/server.js` picks its second-highest band, while in the four-band variant
of `src/unnamed/part_002` the ">30" band is the highest band. -/
theorem c5_scenario_amended :
    closestWeatherCode 0 = 0 ∧
    weatherTraitsTable 0 = some clearSkyTraits ∧
    getTemperatureTraits 38 30 = tempTraitsOver30 ∧
    getTemperatureTraitsP2 38 30 = p2TempTraitsOver30 := by
  refine ⟨by decide, by decide, ?_, ?_⟩
  · unfold getTemperatureTraits
    rw [if_neg (by norm_num), if_pos (by norm_num)]
  · unfold getTemperatureTraitsP2
    rw [if_pos (by norm_num)]

/-- C10: for a fixed weather input, the `weather_summary` and
`temperature_insight` of the generated horoscope do not depend on the values
drawn from the random source, and the number of personality traits is fixed by
the input alone: two, plus exactly two more when precipitation is positive. -/
theorem c10_horoscope_deterministic_fields (daily : DailyWeather)
    (weatherRandIdx tempRandIdx weatherRandIdx' tempRandIdx' : Nat) :
    (generateHoroscope daily weatherRandIdx tempRandIdx).weather_summary =
      (generateHoroscope daily weatherRandIdx' tempRandIdx').weather_summary ∧
    (generateHoroscope daily weatherRandIdx tempRandIdx).temperature_insight =
      (generateHoroscope daily weatherRandIdx' tempRandIdx').temperature_insight ∧
    (generateHoroscope daily weatherRandIdx tempRandIdx).personality_traits.length =
      (generateHoroscope daily weatherRandIdx' tempRandIdx').personality_traits.length ∧
    (generateHoroscope daily weatherRandIdx tempRandIdx).personality_traits.length =
      (if daily.precipitation_sum > 0 then 4 else 2) := by
  unfold generateHoroscope
  dsimp only
  split_ifs <;> simp

/-- C8: for any date-validity test (in particular the one `new Date` actually
implements), the `GET /weather` handler returns 400 exactly when a required
parameter is missing or invalid (non-numeric coordinates per the ECMAScript
string-to-number grammar, or a date failing the test); given valid parameters
it returns 404 exactly when the upstream responds without usable daily data
for the request, and 500 on every other upstream failure. -/
theorem c8_weather_status_taxonomy (dateValid : String → Bool) (q : WeatherQuery)
    (u : UpstreamOutcome) :
    (weatherStatus dateValid q u = 400 ↔ paramsInvalid dateValid q = true) ∧
    (paramsInvalid dateValid q = false →
      (weatherStatus dateValid q u = 404 ↔ upstreamNoData u = true)) ∧
    (paramsInvalid dateValid q = false → upstreamOtherFailure u = true →
      weatherStatus dateValid q u = 500) := by
  have hstat : paramsInvalid dateValid q = false → weatherStatus dateValid q u =
      (match u with
       | .ok none => 404
       | .ok (some temps) => if temps.isEmpty then 404 else 200
       | .httpError st => if st = 404 then 404 else 500
       | .netError => 500) := by
    intro h
    unfold paramsInvalid at h
    simp only [Bool.or_eq_false_iff] at h
    obtain ⟨⟨⟨⟨⟨ha, hb⟩, hc⟩, hd⟩, he⟩, hf⟩ := h
    have hf' : dateValid (q.date.getD "") = true := by
      cases hv : dateValid (q.date.getD "")
      · rw [hv] at hf
        exact absurd hf (by decide)
      · rfl
    unfold weatherStatus
    rw [ha, hb, hc, hd, he, hf']
    simp
  have hinv : paramsInvalid dateValid q = true → weatherStatus dateValid q u = 400 := by
    intro h
    unfold paramsInvalid at h
    unfold weatherStatus
    cases h1 : jsFalsyOpt q.latitude <;>
      cases h2 : jsFalsyOpt q.longitude <;>
        cases h3 : jsFalsyOpt q.date <;>
          cases h4 : jsNumberIsNaN (q.latitude.getD "") <;>
            cases h5 : jsNumberIsNaN (q.longitude.getD "") <;>
              cases h6 : dateValid (q.date.getD "") <;>
                simp_all
  refine ⟨⟨fun hs => ?_, fun hp => hinv hp⟩, fun hp => ?_, fun hp hof => ?_⟩
  · cases hp : paramsInvalid dateValid q
    · rw [hstat hp] at hs
      rcases u with temps | st | _
      · rcases temps with _ | temps
        · exact absurd hs (by decide)
        · by_cases he : temps.isEmpty <;> simp [he] at hs
      · by_cases h4 : st = 404 <;> simp [h4] at hs
      · exact absurd hs (by decide)
    · rfl
  · rw [hstat hp]
    rcases u with temps | st | _
    · rcases temps with _ | temps
      · simp [upstreamNoData]
      · by_cases he : temps.isEmpty <;> simp [upstreamNoData, he]
    · by_cases h4 : st = 404 <;> simp [upstreamNoData, h4]
    · simp [upstreamNoData]
  · rw [hstat hp]
    rcases u with temps | st | _
    · simp [upstreamOtherFailure] at hof
    · simp only [upstreamOtherFailure, decide_eq_true_eq] at hof
      show (if st = 404 then 404 else 500) = 500
      rw [if_neg hof]
    · rfl

/-- Witness for C8 at valid parameters, with the date-validity test
instantiated by `isoDateValid`: a network error yields 500 and an upstream
response with no daily series yields 404. -/
theorem c8_weather_status_taxonomy_witness :
    weatherStatus isoDateValid
      ⟨some "37.7749", some "-122.4194", some "2024-01-15"⟩ .netError = 500 ∧
    weatherStatus isoDateValid
      ⟨some "37.7749", some "-122.4194", some "2024-01-15"⟩ (.ok none) = 404 :=
  ⟨(c8_weather_status_taxonomy isoDateValid
      ⟨some "37.7749", some "-122.4194", some "2024-01-15"⟩
      .netError).2.2 (by decide) (by decide),
   ((c8_weather_status_taxonomy isoDateValid
      ⟨some "37.7749", some "-122.4194", some "2024-01-15"⟩
      (.ok none)).2.1 (by decide)).mpr (by decide)⟩
